import Mathlib

/-!
Verification of the Reflexion-Interviewer session state machine and report
synthesizer, as a shallow embedding of the Python sources
(src/services/interview_agent.py and src/services/assessment_engine.py).

Modelling conventions:
- Python strings are Lean String; Python ints are Nat; Python floats that
  carry scores are modelled as exact rationals.
- The text-generation port (NVIDIAClient.chat_completion followed by
  extract_response_text) is modelled as a function from the assembled
  message list to a PortResult: either the extracted text, or a failure
  standing for any exception raised by the call or the extraction.
- uuid generation and timestamps are external nondeterminism: the session
  id is a parameter of session creation, and message timestamps are not
  modelled (no logic reads them).
-/

/-- Mirrors models/schemas.py ResumeSkills. -/
structure ResumeSkills where
  languages : List String := []
  frameworks : List String := []
  tools : List String := []
  databases : List String := []
  cloud_platforms : List String := []
deriving DecidableEq

/-- Mirrors models/schemas.py WorkExperience. -/
structure WorkExperience where
  company : String
  position : String
  duration : String
  description : String
deriving DecidableEq

/-- Mirrors models/schemas.py Education. -/
structure Education where
  institution : String
  degree : String
  field : Option String := none
  graduation_year : Option String := none
deriving DecidableEq

/-- Mirrors models/schemas.py Project. -/
structure Project where
  name : String
  description : String
  technologies : List String := []
deriving DecidableEq

/-- Mirrors models/schemas.py CandidateProfile. -/
structure CandidateProfile where
  name : String
  email : Option String := none
  phone : Option String := none
  summary : Option String := none
  skills : ResumeSkills
  experience : List WorkExperience := []
  education : List Education := []
  projects : List Project := []
  years_of_experience : Option Nat := none
deriving DecidableEq

/-- Mirrors models/schemas.py InterviewPhase. -/
structure InterviewPhase where
  phase_number : Nat
  name : String
  description : String
  question_count : Nat := 0
  max_questions : Nat := 5
deriving DecidableEq

/-- Mirrors models/schemas.py InterviewMessage (timestamp not modelled). -/
structure InterviewMessage where
  role : String
  content : String
deriving DecidableEq

/-- Mirrors models/schemas.py InterviewState (started_at not modelled). -/
structure InterviewState where
  session_id : String
  candidate_profile : CandidateProfile
  job_description : String
  current_phase : Nat
  total_questions : Nat
  conversation_history : List InterviewMessage
  status : String
deriving DecidableEq

/-- The InterviewAgent.PHASES class constant of
services/interview_agent.py lines 36-61. -/
def PHASES : List InterviewPhase :=
  [ { phase_number := 1,
      name := "Warm-up & Background",
      description := "Getting to know the candidate and their background",
      max_questions := 3 },
    { phase_number := 2,
      name := "Technical Depth",
      description := "Deep dive into technical skills from the resume",
      max_questions := 6 },
    { phase_number := 3,
      name := "Problem-Solving Scenario",
      description := "Real-world problem-solving and system design",
      max_questions := 4 },
    { phase_number := 4,
      name := "Behavioral & Wrap-up",
      description := "Soft skills, behavioral questions, and conclusion",
      max_questions := 3 } ]

/-- The mutable fields of the Python InterviewAgent object
(services/interview_agent.py __init__, lines 63-90).
session_id is supplied externally, standing for uuid.uuid4(). -/
structure InterviewAgent where
  candidate_profile : CandidateProfile
  job_description : String
  session_id : String
  current_phase : Nat
  questions_asked_in_phase : Nat
  total_questions : Nat
  conversation_history : List InterviewMessage
  status : String
  system_prompt : String
deriving DecidableEq

/-- InterviewAgent._get_all_skills (lines 127-136).  The Python guard
on candidate_profile.skills is always truthy (a pydantic model), so the
five lists are always concatenated. -/
def get_all_skills (profile : CandidateProfile) : List String :=
  profile.skills.languages ++ profile.skills.frameworks ++ profile.skills.tools
    ++ profile.skills.databases ++ profile.skills.cloud_platforms

/-- Rendering of candidate_profile.years_of_experience or "Not specified"
inside the system prompt: Python or-truthiness maps both None and 0 to the
fallback text. -/
def years_display : Option Nat → String
  | none => "Not specified"
  | some 0 => "Not specified"
  | some n => toString n

/-- InterviewAgent._build_system_prompt (lines 92-125), as a pure function
of the fields it reads. -/
def build_system_prompt (profile : CandidateProfile) (job_description : String)
    (current_phase : Nat) : String :=
  "You are A.I. Harrison, a professional and friendly senior software engineering interviewer conducting a technical interview.\n\nYour role:\n- Conduct a thorough but respectful technical interview\n- Ask probing questions based on the candidate\x27s resume\n- Adapt your questions based on their answers\n- Maintain a professional yet conversational tone\n- Provide constructive feedback when appropriate\n\nCandidate Information:\nName: "
    ++ profile.name
    ++ "\nExperience: " ++ years_display profile.years_of_experience
    ++ " years\nSkills: " ++ String.intercalate ", " (get_all_skills profile)
    ++ "\n\nJob Description:\n" ++ job_description.take 1000
    ++ "\n\nInterview Structure:\n- Phase 1: Warm-up & Background (get to know the candidate)\n- Phase 2: Technical Depth (deep dive into resume skills)\n- Phase 3: Problem-Solving (scenarios and system design)\n- Phase 4: Behavioral & Wrap-up (soft skills and conclusion)\n\nGuidelines:\n- Keep questions relevant to the job and candidate\x27s background\n- Ask follow-up questions based on their answers\n- Encourage detailed explanations\n- Be supportive and professional\n- Wrap up gracefully when concluding the interview\n\nImportant: You are currently in Phase "
    ++ toString current_phase
    ++ " of the interview. Stay focused on the current phase\x27s objectives.\n"

/-- InterviewAgent.__init__ (lines 63-90): fresh session at phase 1 with
zeroed counters, empty transcript, active status and the phase-1 prompt. -/
def InterviewAgent.init (session_id : String) (profile : CandidateProfile)
    (job_description : String) : InterviewAgent :=
  { candidate_profile := profile
    job_description := job_description
    session_id := session_id
    current_phase := 1
    questions_asked_in_phase := 0
    total_questions := 0
    conversation_history := []
    status := "active"
    system_prompt := build_system_prompt profile job_description 1 }

/-- Outcome of one invocation of the text-generation port: the extracted
response text, or a failure standing for any raised exception. -/
inductive PortResult where
  | success (text : String)
  | failure
deriving DecidableEq

/-- A port is a function from the assembled request to its outcome. -/
abbrev Port := List InterviewMessage → PortResult

/-- Result of one process_candidate_response call: the new agent state, the
returned value (next question, closing text, or propagated failure), and
the request sent to the port, if a generation was attempted. -/
inductive ProcessOutcome where
  | reply (text : String)
  | closing (text : String)
  | failed
deriving DecidableEq

structure ProcessTrace where
  state : InterviewAgent
  outcome : ProcessOutcome
  request : Option (List InterviewMessage)
deriving DecidableEq

/-- Appending one message to the transcript (conversation_history.append). -/
def append_message (agent : InterviewAgent) (role content : String) : InterviewAgent :=
  { agent with conversation_history :=
      agent.conversation_history ++ [InterviewMessage.mk role content] }

/-- max_questions of the phase definition self.PHASES[phase - 1]
(out-of-range lookup would raise in Python; it is unreachable since
current_phase stays in [1,4], and is mapped to 0 here). -/
def phase_max_questions (phase : Nat) : Nat :=
  match PHASES.get? (phase - 1) with
  | some p => p.max_questions
  | none => 0

/-- InterviewAgent._should_advance_phase (lines 238-241). -/
def should_advance_phase (agent : InterviewAgent) : Bool :=
  decide (phase_max_questions agent.current_phase ≤ agent.questions_asked_in_phase)

/-- The prompt rebuild performed on phase change (call to
_build_system_prompt at line 196). -/
def rebuild_system_prompt (agent : InterviewAgent) : InterviewAgent :=
  { agent with system_prompt :=
      build_system_prompt agent.candidate_profile agent.job_description agent.current_phase }

/-- The phase-advancement block of process_candidate_response
(lines 193-197): increment the phase, reset the per-phase counter,
rebuild the system prompt for the new phase. -/
def advance_to_next_phase (agent : InterviewAgent) : InterviewAgent :=
  rebuild_system_prompt
    { agent with
        current_phase := agent.current_phase + 1
        questions_asked_in_phase := 0 }

/-- The request assembled by InterviewAgent._generate_next_message
(lines 219-236): the current system prompt followed by the last 10
transcript messages (Python slice conversation_history[-10:]). -/
def generate_next_message_request (agent : InterviewAgent) : List InterviewMessage :=
  InterviewMessage.mk "system" agent.system_prompt
    :: agent.conversation_history.drop (agent.conversation_history.length - 10)

/-- The fixed closing text of InterviewAgent._generate_closing
(lines 243-253). -/
def closing_message : String :=
  "Thank you for taking the time to interview with us today! You\x27ve provided great insights into your technical background and problem-solving approach.\n\nThe interview process is now complete. We\x27ll review your responses and be in touch soon. Do you have any questions for me about the position or the team?"

/-- InterviewAgent._generate_closing (lines 243-253): append the fixed
closing text as an assistant message and return it.  No port call. -/
def generate_closing (agent : InterviewAgent) : InterviewAgent × String :=
  (append_message agent "assistant" closing_message, closing_message)

/-- Steps 3-4 of process_candidate_response (lines 203-213): call the port
on the assembled request; on a non-empty result increment both counters and
append it as an assistant message; on an empty result return it without
recording; on failure propagate with no further mutation. -/
def generate_step (agent : InterviewAgent) (gen : Port) : ProcessTrace :=
  let req := generate_next_message_request agent
  match gen req with
  | PortResult.failure => ⟨agent, ProcessOutcome.failed, some req⟩
  | PortResult.success text =>
      if text = "" then ⟨agent, ProcessOutcome.reply text, some req⟩
      else
        ⟨{ agent with
            questions_asked_in_phase := agent.questions_asked_in_phase + 1
            total_questions := agent.total_questions + 1
            conversation_history :=
              agent.conversation_history ++ [InterviewMessage.mk "assistant" text] },
          ProcessOutcome.reply text, some req⟩

/-- InterviewAgent.process_candidate_response (lines 175-217): append the
candidate text as a user message, evaluate the phase-advancement policy,
then either advance and generate, finish with the closing message, or
generate in the current phase. -/
def process_candidate_response (agent : InterviewAgent) (candidate_message : String)
    (gen : Port) : ProcessTrace :=
  let s1 := append_message agent "user" candidate_message
  if should_advance_phase s1 then
    if s1.current_phase < 4 then
      generate_step (advance_to_next_phase s1) gen
    else
      let s2 := { s1 with status := "completed" }
      ⟨(generate_closing s2).1, ProcessOutcome.closing (generate_closing s2).2, none⟩
  else
    generate_step s1 gen

/-- The scripted assistant-voice opening template of
InterviewAgent.generate_opening (lines 152-156). -/
def opening_script (agent : InterviewAgent) : String :=
  "Hello " ++ agent.candidate_profile.name
    ++ "! I\x27m A.I. Harrison, and I\x27ll be conducting your technical interview today.\n\nI\x27ve reviewed your resume and I\x27m excited to learn more about your experience with "
    ++ String.intercalate ", " ((get_all_skills agent.candidate_profile).take 5)
    ++ ".\n\nLet\x27s start with a warm-up question: Tell me a bit about yourself and your background in software engineering. What drew you to this field?"

/-- The seed messages sent to the port by generate_opening (lines 145-158). -/
def opening_messages (agent : InterviewAgent) : List InterviewMessage :=
  [ InterviewMessage.mk "system" agent.system_prompt,
    InterviewMessage.mk "assistant" (opening_script agent) ]

/-- InterviewAgent.generate_opening (lines 138-173): call the port on the
seed messages, append the result as an assistant message, return it; on
failure propagate with no state change.  Counters are not touched. -/
def generate_opening (agent : InterviewAgent) (gen : Port) :
    InterviewAgent × Option String :=
  match gen (opening_messages agent) with
  | PortResult.failure => (agent, none)
  | PortResult.success opening =>
      (append_message agent "assistant" opening, some opening)

/-- InterviewAgent.get_interview_state (lines 255-268). -/
def get_interview_state (agent : InterviewAgent) : InterviewState :=
  { session_id := agent.session_id
    candidate_profile := agent.candidate_profile
    job_description := agent.job_description
    current_phase := agent.current_phase
    total_questions := agent.total_questions
    conversation_history := agent.conversation_history
    status := agent.status }

/-! ## Report synthesizer (services/assessment_engine.py) -/

/-- Mirrors models/schemas.py PhaseScore; scores are modelled as exact
rationals. -/
structure PhaseScore where
  phase_number : Nat
  phase_name : String
  technical_accuracy : ℚ
  problem_solving : ℚ
  communication : ℚ
  depth_of_knowledge : ℚ
  average_score : ℚ
deriving DecidableEq

/-- Mirrors models/schemas.py CandidateStrengths. -/
structure CandidateStrengths where
  top_strengths : List String
  demonstrated_skills : List String
  notable_achievements : List String := []
deriving DecidableEq

/-- Mirrors models/schemas.py CandidateWeaknesses. -/
structure CandidateWeaknesses where
  areas_for_improvement : List String
  missing_skills : List String := []
  concerns : List String := []
deriving DecidableEq

/-- One entry of the phase_scores array in the model-produced assessment
JSON, as consumed by AssessmentEngine._parse_phase_scores.  The
average_score field models a model-supplied average, which the source never
reads. -/
structure RawPhase where
  phase_number : Nat
  phase_name : String
  technical_accuracy : ℚ
  problem_solving : ℚ
  communication : ℚ
  depth_of_knowledge : ℚ
  average_score : Option ℚ := none
deriving DecidableEq

/-- The validated assessment payload extracted from the model response by
_parse_assessment_response plus the dictionary accesses in generate_report:
a value of this type stands for a run in which every key access and type
coercion succeeded. -/
structure AssessmentData where
  overall_score : ℚ
  recommendation : String
  phase_scores : List RawPhase
  strengths : CandidateStrengths
  weaknesses : CandidateWeaknesses
  summary : String
  key_highlights : List String
deriving DecidableEq

/-- Mirrors models/schemas.py InterviewReport (generated_at not modelled;
raw_analysis retains the parsed payload when present). -/
structure InterviewReport where
  session_id : String
  candidate_name : String
  job_title : String
  overall_score : ℚ
  recommendation : String
  phase_scores : List PhaseScore
  strengths : CandidateStrengths
  weaknesses : CandidateWeaknesses
  summary : String
  key_highlights : List String
  raw_analysis : Option AssessmentData := none
deriving DecidableEq

/-- Python str.split on a newline separator, structurally over the
character list: split("") = [""], and a trailing separator yields a
trailing empty piece. -/
def split_newline_chars : List Char → List (List Char)
  | [] => [[]]
  | c :: t =>
      let r := split_newline_chars t
      if c = '\n' then [] :: r
      else
        match r with
        | [] => [[c]]
        | h :: t2 => (c :: h) :: t2

/-- Python job_description.split of assessment_engine.py line 207. -/
def split_lines (s : String) : List String :=
  (split_newline_chars s.data).map (fun cs => String.mk cs)

/-- Python str.strip: drop leading and trailing whitespace. -/
def py_strip (s : String) : String :=
  String.mk (((s.data.dropWhile Char.isWhitespace).reverse.dropWhile
    Char.isWhitespace).reverse)

/-- Python str.lower (ASCII is all the sources rely on). -/
def py_lower (s : String) : String :=
  String.mk (s.data.map Char.toLower)

/-- Whether the character list sub occurs at the head of l. -/
def chars_match_head (sub l : List Char) : Bool :=
  match sub, l with
  | [], _ => true
  | _ :: _, [] => false
  | a :: as, b :: bs => a == b && chars_match_head as bs

/-- Whether the character list sub occurs anywhere inside l. -/
def chars_contain (l sub : List Char) : Bool :=
  chars_match_head sub l ||
    match l with
    | [] => false
    | _ :: t => chars_contain t sub

/-- Python substring membership: sub in s. -/
def str_contains (s sub : String) : Bool :=
  chars_contain s.data sub.data

/-- The role keywords of AssessmentEngine._extract_job_title (line 211). -/
def role_keywords : List String :=
  ["engineer", "developer", "software", "architect", "scientist"]

/-- AssessmentEngine._extract_job_title (lines 204-213): the stripped first
line of the job description is used when it is shorter than 100 characters
and contains a role keyword case-insensitively; otherwise the fixed
default title. -/
def extract_job_title (job_description : String) : String :=
  match split_lines job_description with
  | [] => "Software Engineer"
  | first :: _ =>
      let first_line := py_strip first
      if first_line.length < 100
          ∧ role_keywords.any (fun k => str_contains (py_lower first_line) k) = true then
        first_line
      else
        "Software Engineer"

/-- AssessmentEngine._parse_phase_scores (lines 182-202): each phase score
carries the four sub-scores and an average recomputed from them; the
model-supplied average field of the raw entry is never read. -/
def parse_phase_scores (phase_data : List RawPhase) : List PhaseScore :=
  phase_data.map fun phase =>
    { phase_number := phase.phase_number
      phase_name := phase.phase_name
      technical_accuracy := phase.technical_accuracy
      problem_solving := phase.problem_solving
      communication := phase.communication
      depth_of_knowledge := phase.depth_of_knowledge
      average_score :=
        (phase.technical_accuracy + phase.problem_solving
          + phase.communication + phase.depth_of_knowledge) / 4 }

/-- AssessmentEngine._generate_fallback_report (lines 215-249): the neutral
report synthesized when assessment generation fails. -/
def generate_fallback_report (interview_state : InterviewState) : InterviewReport :=
  { session_id := interview_state.session_id
    candidate_name := interview_state.candidate_profile.name
    job_title := extract_job_title interview_state.job_description
    overall_score := 5
    recommendation := "maybe"
    phase_scores := PHASES.enum.map fun ip =>
      { phase_number := ip.1 + 1
        phase_name := ip.2.name
        technical_accuracy := 5
        problem_solving := 5
        communication := 5
        depth_of_knowledge := 5
        average_score := 5 }
    strengths :=
      { top_strengths := ["Completed interview successfully"]
        demonstrated_skills := []
        notable_achievements := [] }
    weaknesses :=
      { areas_for_improvement := ["Assessment incomplete"]
        missing_skills := []
        concerns := ["AI assessment generation failed"] }
    summary := "Assessment report generation encountered an error. Manual review recommended."
    key_highlights := ["Interview session completed"] }

/-- AssessmentEngine.generate_report (lines 79-136).  The fallible pipeline
from prompt build through the port call, JSON extraction, parsing, key
access and typed validation is abstracted as the pipeline argument: ok
carries the fully parsed payload, error stands for an exception thrown at
any of those steps.  The top-level except handler maps every failure to the
fallback report.  candidate_skills is accepted and unused, as in the
source. -/
def generate_report (interview_state : InterviewState)
    (candidate_skills : List String)
    (pipeline : Except Unit AssessmentData) : InterviewReport :=
  match pipeline with
  | Except.ok assessment_data =>
      { session_id := interview_state.session_id
        candidate_name := interview_state.candidate_profile.name
        job_title := extract_job_title interview_state.job_description
        overall_score := assessment_data.overall_score
        recommendation := assessment_data.recommendation
        phase_scores := parse_phase_scores assessment_data.phase_scores
        strengths := assessment_data.strengths
        weaknesses := assessment_data.weaknesses
        summary := assessment_data.summary
        key_highlights := assessment_data.key_highlights
        raw_analysis := some assessment_data }
  | Except.error _ => generate_fallback_report interview_state

/-! ## Concrete scenario data and a reference run

The scenario of spec section 8: candidate Jane Doe with two listed skills,
job description whose first line is Backend Engineer, a port that answers
every generation with a fixed non-empty question. -/

def jane_skills : ResumeSkills := { languages := ["Python", "Go"] }

def jane_profile : CandidateProfile := { name := "Jane Doe", skills := jane_skills }

def jane_jd : String := "Backend Engineer\nBuild and operate backend services."

def always_answer : Port := fun _ => PortResult.success "Next question?"

def fail_port : Port := fun _ => PortResult.failure

def step_once (agent : InterviewAgent) : InterviewAgent :=
  (process_candidate_response agent "I see." always_answer).state

/-- The reference run: n process calls on a fresh Jane Doe session with an
always-answering port. -/
def runN : Nat → InterviewAgent
  | 0 => InterviewAgent.init "sid-1" jane_profile jane_jd
  | n + 1 => step_once (runN n)

/-- A general run: n process calls with per-call candidate texts and
per-call port behavior. -/
def runWith (s0 : InterviewAgent) (msgs : Nat → String) (gens : Nat → Port) :
    Nat → InterviewAgent
  | 0 => s0
  | n + 1 =>
      (process_candidate_response (runWith s0 msgs gens n) (msgs n) (gens n)).state

/-- A port that returns a non-empty extracted message on every generation. -/
def AlwaysAnswers (gen : Port) : Prop :=
  ∀ req, ∃ text, gen req = PortResult.success text ∧ text ≠ ""

/-- The control-relevant projection of the agent state: phase, per-phase
counter, total counter, status. -/
def core (agent : InterviewAgent) : Nat × Nat × Nat × String :=
  (agent.current_phase, agent.questions_asked_in_phase,
    agent.total_questions, agent.status)

/-! ## Small projection lemmas -/

@[simp] theorem append_message_current_phase (a : InterviewAgent) (r c : String) :
    (append_message a r c).current_phase = a.current_phase := rfl

@[simp] theorem append_message_questions (a : InterviewAgent) (r c : String) :
    (append_message a r c).questions_asked_in_phase = a.questions_asked_in_phase := rfl

@[simp] theorem append_message_total (a : InterviewAgent) (r c : String) :
    (append_message a r c).total_questions = a.total_questions := rfl

@[simp] theorem append_message_status (a : InterviewAgent) (r c : String) :
    (append_message a r c).status = a.status := rfl

@[simp] theorem append_message_system_prompt (a : InterviewAgent) (r c : String) :
    (append_message a r c).system_prompt = a.system_prompt := rfl

@[simp] theorem append_message_profile (a : InterviewAgent) (r c : String) :
    (append_message a r c).candidate_profile = a.candidate_profile := rfl

@[simp] theorem append_message_jd (a : InterviewAgent) (r c : String) :
    (append_message a r c).job_description = a.job_description := rfl

@[simp] theorem append_message_history (a : InterviewAgent) (r c : String) :
    (append_message a r c).conversation_history
      = a.conversation_history ++ [InterviewMessage.mk r c] := rfl

@[simp] theorem advance_current_phase (a : InterviewAgent) :
    (advance_to_next_phase a).current_phase = a.current_phase + 1 := rfl

@[simp] theorem advance_questions (a : InterviewAgent) :
    (advance_to_next_phase a).questions_asked_in_phase = 0 := rfl

@[simp] theorem advance_total (a : InterviewAgent) :
    (advance_to_next_phase a).total_questions = a.total_questions := rfl

@[simp] theorem advance_status (a : InterviewAgent) :
    (advance_to_next_phase a).status = a.status := rfl

@[simp] theorem advance_history (a : InterviewAgent) :
    (advance_to_next_phase a).conversation_history = a.conversation_history := rfl

@[simp] theorem advance_system_prompt (a : InterviewAgent) :
    (advance_to_next_phase a).system_prompt
      = build_system_prompt a.candidate_profile a.job_description (a.current_phase + 1) := rfl

@[simp] theorem generate_closing_fst (a : InterviewAgent) :
    (generate_closing a).1 = append_message a "assistant" closing_message := rfl

@[simp] theorem generate_closing_snd (a : InterviewAgent) :
    (generate_closing a).2 = closing_message := rfl

/-! ## Branch characterizations of process_candidate_response -/

theorem should_advance_iff (a : InterviewAgent) :
    should_advance_phase a = true
      ↔ phase_max_questions a.current_phase ≤ a.questions_asked_in_phase := by
  simp [should_advance_phase]

theorem process_not_advance (a : InterviewAgent) (m : String) (gen : Port)
    (h : ¬ phase_max_questions a.current_phase ≤ a.questions_asked_in_phase) :
    process_candidate_response a m gen = generate_step (append_message a "user" m) gen := by
  have hb : should_advance_phase (append_message a "user" m) = false := by
    simp [should_advance_phase, h]
  simp [process_candidate_response, hb]

theorem process_advance_lt (a : InterviewAgent) (m : String) (gen : Port)
    (h : phase_max_questions a.current_phase ≤ a.questions_asked_in_phase)
    (h4 : a.current_phase < 4) :
    process_candidate_response a m gen
      = generate_step (advance_to_next_phase (append_message a "user" m)) gen := by
  have hb : should_advance_phase (append_message a "user" m) = true := by
    simp [should_advance_phase, h]
  simp [process_candidate_response, hb, h4]

theorem process_advance_completed (a : InterviewAgent) (m : String) (gen : Port)
    (h : phase_max_questions a.current_phase ≤ a.questions_asked_in_phase)
    (h4 : ¬ a.current_phase < 4) :
    process_candidate_response a m gen
      = ⟨append_message { append_message a "user" m with status := "completed" }
            "assistant" closing_message,
          ProcessOutcome.closing closing_message, none⟩ := by
  have hb : should_advance_phase (append_message a "user" m) = true := by
    simp [should_advance_phase, h]
  simp [process_candidate_response, hb, h4]

theorem generate_step_failure (a : InterviewAgent) (gen : Port)
    (hg : gen (generate_next_message_request a) = PortResult.failure) :
    generate_step a gen
      = ⟨a, ProcessOutcome.failed, some (generate_next_message_request a)⟩ := by
  simp [generate_step, hg]

theorem generate_step_empty (a : InterviewAgent) (gen : Port)
    (hg : gen (generate_next_message_request a) = PortResult.success "") :
    generate_step a gen
      = ⟨a, ProcessOutcome.reply "", some (generate_next_message_request a)⟩ := by
  simp [generate_step, hg]

theorem generate_step_success (a : InterviewAgent) (gen : Port) (text : String)
    (hg : gen (generate_next_message_request a) = PortResult.success text)
    (hne : text ≠ "") :
    generate_step a gen
      = ⟨{ a with
            questions_asked_in_phase := a.questions_asked_in_phase + 1
            total_questions := a.total_questions + 1
            conversation_history :=
              a.conversation_history ++ [InterviewMessage.mk "assistant" text] },
          ProcessOutcome.reply text, some (generate_next_message_request a)⟩ := by
  simp [generate_step, hg, hne]

/-! ## Generic step facts -/

theorem generate_step_invariants (a : InterviewAgent) (gen : Port) :
    (generate_step a gen).state.current_phase = a.current_phase
  ∧ (generate_step a gen).state.status = a.status
  ∧ (generate_step a gen).state.system_prompt = a.system_prompt
  ∧ (generate_step a gen).request = some (generate_next_message_request a) := by
  cases hg : gen (generate_next_message_request a) with
  | success text =>
      by_cases he : text = ""
      · subst he; rw [generate_step_empty _ _ hg]; exact ⟨rfl, rfl, rfl, rfl⟩
      · rw [generate_step_success _ _ _ hg he]; exact ⟨rfl, rfl, rfl, rfl⟩
  | failure => rw [generate_step_failure _ _ hg]; exact ⟨rfl, rfl, rfl, rfl⟩

theorem core_sim (s t : InterviewAgent) (m m2 : String) (gen gen2 : Port)
    (h : core s = core t) (hgen : AlwaysAnswers gen) (hgen2 : AlwaysAnswers gen2) :
    core (process_candidate_response s m gen).state
      = core (process_candidate_response t m2 gen2).state := by
  obtain ⟨h1, h2, h3, h4⟩ :
      s.current_phase = t.current_phase
        ∧ s.questions_asked_in_phase = t.questions_asked_in_phase
        ∧ s.total_questions = t.total_questions ∧ s.status = t.status := by
    simpa [core, Prod.ext_iff] using h
  by_cases hadv : phase_max_questions s.current_phase ≤ s.questions_asked_in_phase
  · by_cases hlt : s.current_phase < 4
    · rw [process_advance_lt s m gen hadv hlt,
          process_advance_lt t m2 gen2 (by rw [← h1, ← h2]; exact hadv) (h1 ▸ hlt)]
      obtain ⟨text, hgs, hne⟩ := hgen
        (generate_next_message_request (advance_to_next_phase (append_message s "user" m)))
      obtain ⟨text2, hgs2, hne2⟩ := hgen2
        (generate_next_message_request (advance_to_next_phase (append_message t "user" m2)))
      rw [generate_step_success _ _ _ hgs hne, generate_step_success _ _ _ hgs2 hne2]
      simp [core, h1, h3, h4]
    · rw [process_advance_completed s m gen hadv hlt,
          process_advance_completed t m2 gen2 (by rw [← h1, ← h2]; exact hadv)
            (by rw [← h1]; exact hlt)]
      simp [core, h1, h2, h3]
  · rw [process_not_advance s m gen hadv,
        process_not_advance t m2 gen2 (by rw [← h1, ← h2]; exact hadv)]
    obtain ⟨text, hgs, hne⟩ := hgen
      (generate_next_message_request (append_message s "user" m))
    obtain ⟨text2, hgs2, hne2⟩ := hgen2
      (generate_next_message_request (append_message t "user" m2))
    rw [generate_step_success _ _ _ hgs hne, generate_step_success _ _ _ hgs2 hne2]
    simp [core, h1, h2, h3, h4]

theorem always_answer_spec : AlwaysAnswers always_answer :=
  fun _ => ⟨"Next question?", rfl, by decide⟩

theorem runWith_core (sid : String) (profile : CandidateProfile) (jd : String)
    (msgs : Nat → String) (gens : Nat → Port)
    (hgens : ∀ i, AlwaysAnswers (gens i)) :
    ∀ n, core (runWith (InterviewAgent.init sid profile jd) msgs gens n) = core (runN n) := by
  intro n
  induction n with
  | zero => rfl
  | succ n ih => exact core_sim _ _ _ _ _ _ ih (hgens n) always_answer_spec

/-! ## Reachability and the state invariant -/

/-- States reachable from a freshly created session through the agent's
operations (any ports, any inputs). -/
inductive Reachable : InterviewAgent → Prop where
  | init (sid : String) (profile : CandidateProfile) (jd : String) :
      Reachable (InterviewAgent.init sid profile jd)
  | opening (agent : InterviewAgent) (gen : Port) :
      Reachable agent → Reachable (generate_opening agent gen).1
  | step (agent : InterviewAgent) (m : String) (gen : Port) :
      Reachable agent → Reachable (process_candidate_response agent m gen).state

/-- The session-state invariant: phase within [1,4] and the per-phase
counter bounded by the active phase quota. -/
def GoodState (agent : InterviewAgent) : Prop :=
  1 ≤ agent.current_phase ∧ agent.current_phase ≤ 4
    ∧ agent.questions_asked_in_phase ≤ phase_max_questions agent.current_phase

theorem phase_max_questions_pos (p : Nat) (h1 : 1 ≤ p) (h2 : p ≤ 4) :
    1 ≤ phase_max_questions p := by
  interval_cases p <;> decide

theorem goodState_init (sid : String) (profile : CandidateProfile) (jd : String) :
    GoodState (InterviewAgent.init sid profile jd) := by
  refine ⟨Nat.le_refl 1, ?_, ?_⟩
  · show (1 : ℕ) ≤ 4
    decide
  · show (0 : ℕ) ≤ phase_max_questions 1
    decide

theorem goodState_opening (agent : InterviewAgent) (gen : Port) (h : GoodState agent) :
    GoodState (generate_opening agent gen).1 := by
  cases hg : gen (opening_messages agent) with
  | success text => simpa [generate_opening, hg, GoodState] using h
  | failure => simpa [generate_opening, hg, GoodState] using h

theorem goodState_step (agent : InterviewAgent) (m : String) (gen : Port)
    (h : GoodState agent) :
    GoodState (process_candidate_response agent m gen).state := by
  obtain ⟨hl, hu, hq⟩ := h
  by_cases hadv : phase_max_questions agent.current_phase ≤ agent.questions_asked_in_phase
  · by_cases hlt : agent.current_phase < 4
    · rw [process_advance_lt agent m gen hadv hlt]
      cases hg : gen (generate_next_message_request
          (advance_to_next_phase (append_message agent "user" m))) with
      | success text =>
          by_cases he : text = ""
          · subst he
            rw [generate_step_empty _ _ hg]
            refine ⟨by simp, ?_, by simp⟩
            show agent.current_phase + 1 ≤ 4
            omega
          · rw [generate_step_success _ _ _ hg he]
            refine ⟨by simp, ?_, ?_⟩
            · show agent.current_phase + 1 ≤ 4
              omega
            · show 0 + 1 ≤ phase_max_questions (agent.current_phase + 1)
              have := phase_max_questions_pos (agent.current_phase + 1) (by omega) (by omega)
              omega
      | failure =>
          rw [generate_step_failure _ _ hg]
          refine ⟨by simp, ?_, by simp⟩
          show agent.current_phase + 1 ≤ 4
          omega
    · rw [process_advance_completed agent m gen hadv hlt]
      exact ⟨hl, hu, hq⟩
  · rw [process_not_advance agent m gen hadv]
    cases hg : gen (generate_next_message_request (append_message agent "user" m)) with
    | success text =>
        by_cases he : text = ""
        · subst he
          rw [generate_step_empty _ _ hg]
          exact ⟨hl, hu, hq⟩
        · rw [generate_step_success _ _ _ hg he]
          refine ⟨hl, hu, ?_⟩
          show agent.questions_asked_in_phase + 1 ≤ phase_max_questions agent.current_phase
          omega
    | failure =>
        rw [generate_step_failure _ _ hg]
        exact ⟨hl, hu, hq⟩

theorem reachable_goodState (agent : InterviewAgent) (h : Reachable agent) :
    GoodState agent := by
  induction h with
  | init sid profile jd => exact goodState_init sid profile jd
  | opening a gen _ ih => exact goodState_opening a gen ih
  | step a m gen _ ih => exact goodState_step a m gen ih

/-! ## Claim theorems -/

/-- The stripped first line of a job description (what
_extract_job_title compares against). -/
def first_line_trimmed (jd : String) : String :=
  py_strip ((split_lines jd).headD "")

/-- Claim C9: job-title derivation returns the job description's (stripped)
first line exactly when that line is non-empty, shorter than 100
characters, and contains a role keyword case-insensitively; otherwise it
returns the fixed default title.  In particular a first line of Senior
Backend Engineer is kept verbatim and a first line of We are hiring! falls
back to the default. -/
theorem extract_job_title_characterization (jd : String) :
    (extract_job_title jd = first_line_trimmed jd ↔
      (first_line_trimmed jd ≠ "" ∧ (first_line_trimmed jd).length < 100
        ∧ role_keywords.any
            (fun k => str_contains (py_lower (first_line_trimmed jd)) k) = true))
  ∧ (extract_job_title jd = first_line_trimmed jd
      ∨ extract_job_title jd = "Software Engineer")
  ∧ extract_job_title "Senior Backend Engineer\nWe need you." = "Senior Backend Engineer"
  ∧ extract_job_title "We are hiring!\nJoin us." = "Software Engineer" := by
  cases hsplit : split_lines jd with
  | nil =>
      have hfl : first_line_trimmed jd = "" := by
        simp [first_line_trimmed, hsplit, py_strip]
      have het : extract_job_title jd = "Software Engineer" := by
        simp [extract_job_title, hsplit]
      refine ⟨?_, Or.inr het, by decide, by decide⟩
      rw [het, hfl]
      constructor
      · intro he
        exact absurd he (by decide)
      · rintro ⟨hne, -, -⟩
        exact absurd rfl hne
  | cons first rest =>
      have hfl : first_line_trimmed jd = py_strip first := by
        simp [first_line_trimmed, hsplit]
      by_cases hcond : (py_strip first).length < 100
          ∧ role_keywords.any (fun k => str_contains (py_lower (py_strip first)) k) = true
      · have het : extract_job_title jd = py_strip first := by
          simp [extract_job_title, hsplit, hcond]
        have hne : py_strip first ≠ "" := by
          intro h0
          rw [h0] at hcond
          exact absurd hcond.2 (by decide)
        refine ⟨?_, Or.inl (by rw [het, hfl]), by decide, by decide⟩
        rw [het, hfl]
        exact ⟨fun _ => ⟨hne, hcond.1, hcond.2⟩, fun _ => rfl⟩
      · have het : extract_job_title jd = "Software Engineer" := by
          simp only [extract_job_title, hsplit]
          rw [if_neg hcond]
        have hswe : py_strip first ≠ "Software Engineer" := by
          intro h0
          apply hcond
          rw [h0]
          exact ⟨by decide, by decide⟩
        refine ⟨?_, Or.inr het, by decide, by decide⟩
        rw [het, hfl]
        constructor
        · intro he
          exact absurd he.symm hswe
        · rintro ⟨-, hlen, hkw⟩
          exact absurd ⟨hlen, hkw⟩ hcond

/-- Claim C7: every phase score produced by report parsing carries an
average recomputed as the arithmetic mean of its four sub-scores; the
model-supplied average field of the raw payload is never read; and the
report assembled from a successful pipeline uses exactly these parsed
scores. -/
theorem parse_phase_scores_average (phase_data : List RawPhase) :
    (∀ score ∈ parse_phase_scores phase_data,
        score.average_score
          = (score.technical_accuracy + score.problem_solving
              + score.communication + score.depth_of_knowledge) / 4)
  ∧ (∀ avg1 avg2 : Option ℚ,
        parse_phase_scores (phase_data.map (fun p => { p with average_score := avg1 }))
          = parse_phase_scores (phase_data.map (fun p => { p with average_score := avg2 })))
  ∧ (∀ (st : InterviewState) (skills : List String) (data : AssessmentData),
        data.phase_scores = phase_data →
        (generate_report st skills (Except.ok data)).phase_scores
          = parse_phase_scores phase_data) := by
  refine ⟨?_, ?_, ?_⟩
  · intro score hmem
    simp only [parse_phase_scores, List.mem_map] at hmem
    obtain ⟨p, -, rfl⟩ := hmem
    rfl
  · intro avg1 avg2
    induction phase_data with
    | nil => rfl
    | cons p t ih =>
        simp only [List.map_cons, parse_phase_scores] at ih ⊢
        rw [ih]
  · intro st skills data h
    rw [← h]
    rfl

/-- A sample raw phase entry whose model-supplied average (9) disagrees
with the mean of its sub-scores (5). -/
def demo_raw_phase : RawPhase :=
  { phase_number := 1
    phase_name := "Warm-up & Background"
    technical_accuracy := 4
    problem_solving := 6
    communication := 8
    depth_of_knowledge := 2
    average_score := some 9 }

/-- Witness for C7 at a concrete raw score whose supplied average is
overridden by the recomputed mean. -/
theorem parse_phase_scores_average_witness :
    (PhaseScore.mk 1 "Warm-up & Background" 4 6 8 2 5) ∈ parse_phase_scores [demo_raw_phase]
  ∧ (PhaseScore.mk 1 "Warm-up & Background" 4 6 8 2 5).average_score
      = ((PhaseScore.mk 1 "Warm-up & Background" 4 6 8 2 5).technical_accuracy
          + (PhaseScore.mk 1 "Warm-up & Background" 4 6 8 2 5).problem_solving
          + (PhaseScore.mk 1 "Warm-up & Background" 4 6 8 2 5).communication
          + (PhaseScore.mk 1 "Warm-up & Background" 4 6 8 2 5).depth_of_knowledge) / 4 := by
  have hmem : (PhaseScore.mk 1 "Warm-up & Background" 4 6 8 2 5)
      ∈ parse_phase_scores [demo_raw_phase] := by
    have h5 : ((4 : ℚ) + 6 + 8 + 2) / 4 = 5 := by norm_num
    simp [parse_phase_scores, demo_raw_phase, h5]
  exact ⟨hmem, (parse_phase_scores_average [demo_raw_phase]).1 _ hmem⟩

/-- A sample read-only interview-state snapshot. -/
def demo_interview_state : InterviewState :=
  { session_id := "sid-1"
    candidate_profile := jane_profile
    job_description := jane_jd
    current_phase := 1
    total_questions := 0
    conversation_history := []
    status := "active" }

/-- Claim C4: report generation is total by construction, and whenever the
fallible pipeline throws, the returned report is the neutral fallback:
overall score 5, recommendation maybe, exactly one entry per catalog phase
(4 entries numbered 1..4) with every sub-score and the average equal to
5. -/
theorem generate_report_total_fallback (st : InterviewState) (skills : List String) :
    (∀ e : Unit, generate_report st skills (Except.error e) = generate_fallback_report st)
  ∧ (generate_fallback_report st).overall_score = 5
  ∧ (generate_fallback_report st).recommendation = "maybe"
  ∧ (generate_fallback_report st).phase_scores.length = 4
  ∧ (generate_fallback_report st).phase_scores.length = PHASES.length
  ∧ (generate_fallback_report st).phase_scores.map (fun p => p.phase_number) = [1, 2, 3, 4]
  ∧ ∀ ps ∈ (generate_fallback_report st).phase_scores,
      ps.technical_accuracy = 5 ∧ ps.problem_solving = 5 ∧ ps.communication = 5
        ∧ ps.depth_of_knowledge = 5 ∧ ps.average_score = 5 := by
  have hlist : (generate_fallback_report st).phase_scores
      = [PhaseScore.mk 1 "Warm-up & Background" 5 5 5 5 5,
         PhaseScore.mk 2 "Technical Depth" 5 5 5 5 5,
         PhaseScore.mk 3 "Problem-Solving Scenario" 5 5 5 5 5,
         PhaseScore.mk 4 "Behavioral & Wrap-up" 5 5 5 5 5] := rfl
  refine ⟨fun e => rfl, rfl, rfl, ?_, ?_, ?_, ?_⟩
  · rw [hlist]; rfl
  · rw [hlist]; rfl
  · rw [hlist]; rfl
  · intro ps hps
    rw [hlist] at hps
    simp only [List.mem_cons, List.not_mem_nil, or_false] at hps
    rcases hps with rfl | rfl | rfl | rfl <;> exact ⟨rfl, rfl, rfl, rfl, rfl⟩

/-- Witness for C4 at a concrete snapshot and a throwing pipeline. -/
theorem generate_report_total_fallback_witness :
    generate_report demo_interview_state [] (Except.error ())
        = generate_fallback_report demo_interview_state
  ∧ (generate_fallback_report demo_interview_state).recommendation = "maybe"
  ∧ (generate_fallback_report demo_interview_state).overall_score = 5 :=
  ⟨(generate_report_total_fallback demo_interview_state []).1 (),
    (generate_report_total_fallback demo_interview_state []).2.2.1,
    (generate_report_total_fallback demo_interview_state []).2.1⟩

theorem window_length_le (a : InterviewAgent) :
    (generate_next_message_request a).tail.length ≤ 10 := by
  simp only [generate_next_message_request, List.tail_cons, List.length_drop]
  omega

/-- Claim C8: every generation request is the current system instruction
followed by at most the last 10 transcript messages, as a suffix (hence in
original append order, with no role filtering); with 30 recorded messages
the window is exactly the last 10; and every request recorded by a process
call has this shape. -/
theorem generation_request_window (s : InterviewAgent) :
    (generate_next_message_request s).head?
        = some (InterviewMessage.mk "system" s.system_prompt)
  ∧ (generate_next_message_request s).tail.length
        = min 10 s.conversation_history.length
  ∧ (generate_next_message_request s).tail.IsSuffix s.conversation_history
  ∧ (s.conversation_history.length = 30 →
        (generate_next_message_request s).tail = s.conversation_history.drop 20)
  ∧ (∀ (m : String) (gen : Port) (req : List InterviewMessage),
        (process_candidate_response s m gen).request = some req →
        ∃ a : InterviewAgent, req = generate_next_message_request a
          ∧ req.head? = some (InterviewMessage.mk "system" a.system_prompt)
          ∧ req.tail.length ≤ 10) := by
  refine ⟨rfl, ?_, ?_, ?_, ?_⟩
  · simp only [generate_next_message_request, List.tail_cons, List.length_drop]
    omega
  · simp only [generate_next_message_request, List.tail_cons]
    exact List.drop_suffix _ _
  · intro h30
    simp only [generate_next_message_request, List.tail_cons, h30]
  · intro m gen req hreq
    by_cases hadv : phase_max_questions s.current_phase ≤ s.questions_asked_in_phase
    · by_cases hlt : s.current_phase < 4
      · rw [process_advance_lt s m gen hadv hlt] at hreq
        rw [(generate_step_invariants _ gen).2.2.2] at hreq
        obtain rfl := Option.some.inj hreq
        exact ⟨_, rfl, rfl, window_length_le _⟩
      · rw [process_advance_completed s m gen hadv hlt] at hreq
        exact absurd hreq (by simp)
    · rw [process_not_advance s m gen hadv] at hreq
      rw [(generate_step_invariants _ gen).2.2.2] at hreq
      obtain rfl := Option.some.inj hreq
      exact ⟨_, rfl, rfl, window_length_le _⟩

/-- A snapshot with 30 recorded messages, for the window witness. -/
def demo_loaded_agent : InterviewAgent :=
  { InterviewAgent.init "sid-2" jane_profile jane_jd with
      conversation_history :=
        (List.range 30).map (fun i => InterviewMessage.mk "user" (toString i)) }

/-- Witness for C8 at a 30-message session. -/
theorem generation_request_window_witness :
    (generate_next_message_request demo_loaded_agent).tail
        = demo_loaded_agent.conversation_history.drop 20
  ∧ (generate_next_message_request demo_loaded_agent).tail.length = 10 :=
  ⟨(generation_request_window demo_loaded_agent).2.2.2.1 (by decide),
    by rw [(generation_request_window demo_loaded_agent).2.1]; decide⟩

/-- Claim C2: on an active-phase call, advancement happens exactly when the
per-phase counter has reached the active phase's quota; the check precedes
generation, so a boundary-crossing call with phase below 4 increments the
phase by exactly 1, resets the counter to 0 before generating, and sends
the port a request headed by the system instruction rebuilt for the new
phase; a non-boundary call generates under the unchanged instruction. -/
theorem phase_advancement_policy (s : InterviewAgent) (m : String) (gen : Port) :
    ((process_candidate_response s m gen).state.current_phase = s.current_phase + 1
        ↔ (phase_max_questions s.current_phase ≤ s.questions_asked_in_phase
            ∧ s.current_phase < 4))
  ∧ (¬ phase_max_questions s.current_phase ≤ s.questions_asked_in_phase →
        (process_candidate_response s m gen).state.current_phase = s.current_phase
      ∧ (process_candidate_response s m gen).state.system_prompt = s.system_prompt
      ∧ (process_candidate_response s m gen).request
          = some (generate_next_message_request (append_message s "user" m)))
  ∧ (phase_max_questions s.current_phase ≤ s.questions_asked_in_phase →
      s.current_phase < 4 →
        (process_candidate_response s m gen).state.current_phase = s.current_phase + 1
      ∧ (advance_to_next_phase (append_message s "user" m)).questions_asked_in_phase = 0
      ∧ (process_candidate_response s m gen).request
          = some (generate_next_message_request
              (advance_to_next_phase (append_message s "user" m)))
      ∧ (generate_next_message_request
            (advance_to_next_phase (append_message s "user" m))).head?
          = some (InterviewMessage.mk "system"
              (build_system_prompt s.candidate_profile s.job_description
                (s.current_phase + 1)))) := by
  by_cases hadv : phase_max_questions s.current_phase ≤ s.questions_asked_in_phase
  · by_cases hlt : s.current_phase < 4
    · rw [process_advance_lt s m gen hadv hlt]
      have hphase := (generate_step_invariants
        (advance_to_next_phase (append_message s "user" m)) gen).1
      have hreq := (generate_step_invariants
        (advance_to_next_phase (append_message s "user" m)) gen).2.2.2
      refine ⟨?_, fun h => absurd hadv h, fun _ _ => ?_⟩
      · rw [hphase]
        simp [hadv, hlt]
      · refine ⟨by rw [hphase]; simp, rfl, hreq, rfl⟩
    · rw [process_advance_completed s m gen hadv hlt]
      refine ⟨?_, fun h => absurd hadv h, fun _ h4 => absurd h4 hlt⟩
      simp [hlt]
  · rw [process_not_advance s m gen hadv]
    have hinv := generate_step_invariants (append_message s "user" m) gen
    refine ⟨?_, fun _ => ⟨by rw [hinv.1]; simp, by rw [hinv.2.2.1]; simp, hinv.2.2.2⟩,
      fun h => absurd h hadv⟩
    rw [hinv.1]
    simp [hadv]

/-- Witness for C2 at the reference run's first boundary crossing: the
fourth call advances phase 1 to phase 2. -/
theorem phase_advancement_policy_witness :
    (process_candidate_response (runN 3) "I see." always_answer).state.current_phase
        = (runN 3).current_phase + 1
  ∧ (advance_to_next_phase (append_message (runN 3) "user" "I see.")).questions_asked_in_phase
        = 0 := by
  have h := (phase_advancement_policy (runN 3) "I see." always_answer).2.2
    (by decide) (by decide)
  exact ⟨h.1, h.2.1⟩

theorem generate_step_total (a : InterviewAgent) (gen : Port) :
    a.total_questions ≤ (generate_step a gen).state.total_questions
  ∧ ((generate_step a gen).state.total_questions = a.total_questions
      ∨ (generate_step a gen).state.total_questions = a.total_questions + 1)
  ∧ ((generate_step a gen).state.total_questions = a.total_questions + 1
      ↔ ∃ req text, (generate_step a gen).request = some req
          ∧ gen req = PortResult.success text ∧ text ≠ "")
  ∧ ((generate_step a gen).state.total_questions = a.total_questions + 1 →
      (generate_step a gen).state.questions_asked_in_phase
        = a.questions_asked_in_phase + 1) := by
  cases hg : gen (generate_next_message_request a) with
  | failure =>
      rw [generate_step_failure _ _ hg]
      refine ⟨Nat.le_refl _, Or.inl rfl, ?_, fun h => absurd h (by simp)⟩
      constructor
      · intro h
        exact absurd h (by simp)
      · rintro ⟨req, text, hr, hgt, -⟩
        obtain rfl := Option.some.inj hr
        rw [hg] at hgt
        exact PortResult.noConfusion hgt
  | success text =>
      by_cases he : text = ""
      · subst he
        rw [generate_step_empty _ _ hg]
        refine ⟨Nat.le_refl _, Or.inl rfl, ?_, fun h => absurd h (by simp)⟩
        constructor
        · intro h
          exact absurd h (by simp)
        · rintro ⟨req, text2, hr, hgt, hne⟩
          obtain rfl := Option.some.inj hr
          rw [hg] at hgt
          injection hgt with h2
          exact (hne h2.symm).elim
      · rw [generate_step_success _ _ _ hg he]
        exact ⟨Nat.le_succ _, Or.inr rfl, ⟨fun _ => ⟨_, text, rfl, hg, he⟩, fun _ => rfl⟩,
          fun _ => rfl⟩

/-- Claim C6: total_questions never decreases; a process call increments it
by exactly 1, together with the per-phase counter, exactly when the port
returned a non-empty message; the closing turn and generate_opening change
neither counter. -/
theorem total_questions_policy (s : InterviewAgent) (m : String) (gen : Port) :
    s.total_questions ≤ (process_candidate_response s m gen).state.total_questions
  ∧ ((process_candidate_response s m gen).state.total_questions = s.total_questions
      ∨ (process_candidate_response s m gen).state.total_questions = s.total_questions + 1)
  ∧ ((process_candidate_response s m gen).state.total_questions = s.total_questions + 1
      ↔ ∃ req text, (process_candidate_response s m gen).request = some req
          ∧ gen req = PortResult.success text ∧ text ≠ "")
  ∧ ((process_candidate_response s m gen).state.total_questions = s.total_questions + 1 →
      (process_candidate_response s m gen).state.questions_asked_in_phase
        = (if should_advance_phase (append_message s "user" m) then 0
            else s.questions_asked_in_phase) + 1)
  ∧ ((process_candidate_response s m gen).outcome = ProcessOutcome.closing closing_message →
      (process_candidate_response s m gen).state.total_questions = s.total_questions
        ∧ (process_candidate_response s m gen).state.questions_asked_in_phase
            = s.questions_asked_in_phase)
  ∧ (∀ gen2 : Port,
      (generate_opening s gen2).1.total_questions = s.total_questions
        ∧ (generate_opening s gen2).1.questions_asked_in_phase
            = s.questions_asked_in_phase) := by
  have hopen : ∀ gen2 : Port,
      (generate_opening s gen2).1.total_questions = s.total_questions
        ∧ (generate_opening s gen2).1.questions_asked_in_phase
            = s.questions_asked_in_phase := by
    intro gen2
    cases hg : gen2 (opening_messages s) with
    | success t => simp only [generate_opening, hg]; exact ⟨rfl, rfl⟩
    | failure => simp [generate_opening, hg]
  by_cases hadv : phase_max_questions s.current_phase ≤ s.questions_asked_in_phase
  · by_cases hlt : s.current_phase < 4
    · rw [process_advance_lt s m gen hadv hlt]
      have hb : should_advance_phase (append_message s "user" m) = true := by
        simp [should_advance_phase, hadv]
      have hgt := generate_step_total
        (advance_to_next_phase (append_message s "user" m)) gen
      refine ⟨hgt.1, hgt.2.1, hgt.2.2.1, ?_, ?_, hopen⟩
      · intro h
        rw [hb, if_pos rfl]
        exact hgt.2.2.2 h
      · intro hout
        cases hg : gen (generate_next_message_request
            (advance_to_next_phase (append_message s "user" m))) with
        | failure =>
            rw [generate_step_failure _ _ hg] at hout
            exact ProcessOutcome.noConfusion hout
        | success text =>
            by_cases he : text = ""
            · subst he
              rw [generate_step_empty _ _ hg] at hout
              exact ProcessOutcome.noConfusion hout
            · rw [generate_step_success _ _ _ hg he] at hout
              exact ProcessOutcome.noConfusion hout
    · rw [process_advance_completed s m gen hadv hlt]
      refine ⟨Nat.le_refl _, Or.inl rfl, ?_, fun h => absurd h (by simp),
        fun _ => ⟨rfl, rfl⟩, hopen⟩
      constructor
      · intro h
        exact absurd h (by simp)
      · rintro ⟨req, text, hr, -, -⟩
        exact Option.noConfusion hr
  · rw [process_not_advance s m gen hadv]
    have hb : should_advance_phase (append_message s "user" m) = false := by
      simp [should_advance_phase, hadv]
    have hgt := generate_step_total (append_message s "user" m) gen
    refine ⟨hgt.1, hgt.2.1, hgt.2.2.1, ?_, ?_, hopen⟩
    · intro h
      rw [hb]
      simp only [Bool.false_eq_true, if_false]
      exact hgt.2.2.2 h
    · intro hout
      cases hg : gen (generate_next_message_request (append_message s "user" m)) with
      | failure =>
          rw [generate_step_failure _ _ hg] at hout
          exact ProcessOutcome.noConfusion hout
      | success text =>
          by_cases he : text = ""
          · subst he
            rw [generate_step_empty _ _ hg] at hout
            exact ProcessOutcome.noConfusion hout
          · rw [generate_step_success _ _ _ hg he] at hout
            exact ProcessOutcome.noConfusion hout

/-- Witness for C6: the first call of the reference run increments
total_questions from 0 to 1. -/
theorem total_questions_policy_witness :
    (process_candidate_response (runN 0) "Hello!" always_answer).state.total_questions
      = (runN 0).total_questions + 1 :=
  (total_questions_policy (runN 0) "Hello!" always_answer).2.2.1.mpr
    ⟨generate_next_message_request (append_message (runN 0) "user" "Hello!"),
      "Next question?", rfl, rfl, by decide⟩

/-- Amended claim C3: when the port fails during a process call, the
failure propagates and the transcript gains only the step-1 user message;
total_questions and status are untouched; the phase fields are untouched
exactly when the call was not at a phase boundary, while a boundary
crossing performed before generation persists (phase incremented, counter
reset). -/
theorem process_failure_state (s : InterviewAgent) (m : String) (gen : Port)
    (hfail : (process_candidate_response s m gen).outcome = ProcessOutcome.failed) :
    (process_candidate_response s m gen).state.conversation_history
        = s.conversation_history ++ [InterviewMessage.mk "user" m]
  ∧ (process_candidate_response s m gen).state.total_questions = s.total_questions
  ∧ (process_candidate_response s m gen).state.status = s.status
  ∧ (¬ phase_max_questions s.current_phase ≤ s.questions_asked_in_phase →
      (process_candidate_response s m gen).state = append_message s "user" m)
  ∧ (phase_max_questions s.current_phase ≤ s.questions_asked_in_phase →
      s.current_phase < 4 →
      (process_candidate_response s m gen).state
        = advance_to_next_phase (append_message s "user" m)) := by
  by_cases hadv : phase_max_questions s.current_phase ≤ s.questions_asked_in_phase
  · by_cases hlt : s.current_phase < 4
    · rw [process_advance_lt s m gen hadv hlt] at hfail ⊢
      cases hg : gen (generate_next_message_request
          (advance_to_next_phase (append_message s "user" m))) with
      | success text =>
          by_cases he : text = ""
          · subst he
            rw [generate_step_empty _ _ hg] at hfail
            exact ProcessOutcome.noConfusion hfail
          · rw [generate_step_success _ _ _ hg he] at hfail
            exact ProcessOutcome.noConfusion hfail
      | failure =>
          rw [generate_step_failure _ _ hg]
          exact ⟨by simp, by simp, by simp, fun h => absurd hadv h, fun _ _ => rfl⟩
    · rw [process_advance_completed s m gen hadv hlt] at hfail
      exact ProcessOutcome.noConfusion hfail
  · rw [process_not_advance s m gen hadv] at hfail ⊢
    cases hg : gen (generate_next_message_request (append_message s "user" m)) with
    | success text =>
        by_cases he : text = ""
        · subst he
          rw [generate_step_empty _ _ hg] at hfail
          exact ProcessOutcome.noConfusion hfail
        · rw [generate_step_success _ _ _ hg he] at hfail
          exact ProcessOutcome.noConfusion hfail
    | failure =>
        rw [generate_step_failure _ _ hg]
        exact ⟨by simp, by simp, by simp, fun _ => rfl, fun h => absurd h hadv⟩

/-- Counterexample to claim C3 as stated: the 4th call of the reference
run with a failing port propagates the failure, yet the state is not the
step-1 append alone — the phase advanced from 1 to 2 and the per-phase
counter was reset from 3 to 0 before the port was invoked. -/
theorem process_failure_counterexample :
    (process_candidate_response (runN 3) "More." fail_port).outcome = ProcessOutcome.failed
  ∧ (runN 3).current_phase = 1
  ∧ (process_candidate_response (runN 3) "More." fail_port).state.current_phase = 2
  ∧ (runN 3).questions_asked_in_phase = 3
  ∧ (process_candidate_response (runN 3) "More." fail_port).state.questions_asked_in_phase
      = 0 := by
  decide

/-- Witness for the amended C3 at the 4th reference call with a failing
port. -/
theorem process_failure_state_witness :
    (process_candidate_response (runN 3) "More." fail_port).state
      = advance_to_next_phase (append_message (runN 3) "user" "More.") :=
  (process_failure_state (runN 3) "More." fail_port (by decide)).2.2.2.2
    (by decide) (by decide)

/-- Claim C10: a process call on a completed session (phase 4 with its
quota exhausted) records the candidate text, re-appends the fixed closing
message, returns it, and leaves phase, counters and status unchanged. -/
theorem terminal_process_idempotent (s : InterviewAgent) (m : String) (gen : Port)
    (hstatus : s.status = "completed")
    (hphase : s.current_phase = 4)
    (hq : phase_max_questions s.current_phase ≤ s.questions_asked_in_phase) :
    (process_candidate_response s m gen).outcome = ProcessOutcome.closing closing_message
  ∧ (process_candidate_response s m gen).state.conversation_history
      = s.conversation_history
          ++ [InterviewMessage.mk "user" m, InterviewMessage.mk "assistant" closing_message]
  ∧ (process_candidate_response s m gen).state.current_phase = s.current_phase
  ∧ (process_candidate_response s m gen).state.questions_asked_in_phase
      = s.questions_asked_in_phase
  ∧ (process_candidate_response s m gen).state.total_questions = s.total_questions
  ∧ (process_candidate_response s m gen).state.status = s.status := by
  have hlt : ¬ s.current_phase < 4 := by omega
  rw [process_advance_completed s m gen hq hlt]
  exact ⟨rfl, by simp, rfl, rfl, rfl, hstatus.symm⟩

set_option maxRecDepth 40000 in
/-- Witness for C10 at the completed reference session after 17 calls. -/
theorem terminal_process_idempotent_witness :
    (process_candidate_response (runN 17) "Thanks!" always_answer).outcome
      = ProcessOutcome.closing closing_message :=
  (terminal_process_idempotent (runN 17) "Thanks!" always_answer
    (by decide) (by decide) (by decide)).1

/-- Claim C5: in every reachable session state the phase lies in [1,4] and
the per-phase counter never exceeds the active quota by more than 1; a
process call changes the phase by 0 or exactly +1, the opening never
changes it, and the counter is exactly 0 immediately after any phase
increment. -/
theorem session_invariants (s : InterviewAgent) (h : Reachable s) :
    (1 ≤ s.current_phase ∧ s.current_phase ≤ 4)
  ∧ s.questions_asked_in_phase ≤ phase_max_questions s.current_phase + 1
  ∧ (∀ (m : String) (gen : Port),
        (process_candidate_response s m gen).state.current_phase = s.current_phase
          ∨ (process_candidate_response s m gen).state.current_phase = s.current_phase + 1)
  ∧ (∀ gen : Port, (generate_opening s gen).1.current_phase = s.current_phase)
  ∧ (∀ (m : String) (gen : Port),
        phase_max_questions s.current_phase ≤ s.questions_asked_in_phase →
        s.current_phase < 4 →
        (advance_to_next_phase (append_message s "user" m)).questions_asked_in_phase
          = 0) := by
  obtain ⟨hl, hu, hq⟩ := reachable_goodState s h
  refine ⟨⟨hl, hu⟩, by omega, ?_, ?_, fun m gen _ _ => rfl⟩
  · intro m gen
    by_cases hadv : phase_max_questions s.current_phase ≤ s.questions_asked_in_phase
    · by_cases hlt : s.current_phase < 4
      · rw [process_advance_lt s m gen hadv hlt]
        right
        rw [(generate_step_invariants _ gen).1]
        simp
      · rw [process_advance_completed s m gen hadv hlt]
        left
        rfl
    · rw [process_not_advance s m gen hadv]
      left
      rw [(generate_step_invariants _ gen).1]
      simp
  · intro gen
    cases hg : gen (opening_messages s) with
    | success t => simp [generate_opening, hg]
    | failure => simp [generate_opening, hg]

/-- Witness for C5 at a concrete freshly created session. -/
theorem session_invariants_witness :
    1 ≤ (InterviewAgent.init "sid-1" jane_profile jane_jd).current_phase
  ∧ (InterviewAgent.init "sid-1" jane_profile jane_jd).current_phase ≤ 4 :=
  (session_invariants _ (Reachable.init "sid-1" jane_profile jane_jd)).1

set_option maxRecDepth 80000 in
/-- Counterexample to claim C1 as stated: in the reference run (fresh Jane
Doe session, port answering every generation), after 16 process calls the
status is still active, every one of those 16 calls returned an ordinary
reply rather than the completion signal, and the observed phase of the 3rd
call is 1 — phase 1 contributes three answered turns, not the two of the
claimed schedule. -/
theorem interview_schedule_counterexample :
    (runN 16).status = "active"
  ∧ ¬ (runN 16).status = "completed"
  ∧ (runN 3).current_phase = 1
  ∧ ¬ (runN 3).current_phase = 2
  ∧ (List.range 16).map
        (fun i => (process_candidate_response (runN i) "I see." always_answer).outcome)
      = List.replicate 16 (ProcessOutcome.reply "Next question?")
  ∧ (runN 16).total_questions = 16 := by
  decide

set_option maxRecDepth 80000 in
/-- Amended claim C1: from any freshly created session, with arbitrary
candidate texts and any ports that return a non-empty message on every
generation, the 16 answered turns follow the phase schedule
1,1,1,2,2,2,2,2,2,3,3,3,3,4,4,4 with the session still active, and the
17th process call returns the completion signal, setting status to
completed with total_questions equal to 16. -/
theorem interview_schedule (sid : String) (profile : CandidateProfile) (jd : String)
    (msgs : Nat → String) (gens : Nat → Port)
    (hgens : ∀ i, AlwaysAnswers (gens i)) :
    (List.range 16).map
        (fun i => (runWith (InterviewAgent.init sid profile jd) msgs gens (i + 1)).current_phase)
      = [1, 1, 1, 2, 2, 2, 2, 2, 2, 3, 3, 3, 3, 4, 4, 4]
  ∧ (runWith (InterviewAgent.init sid profile jd) msgs gens 16).status = "active"
  ∧ (runWith (InterviewAgent.init sid profile jd) msgs gens 16).total_questions = 16
  ∧ (process_candidate_response (runWith (InterviewAgent.init sid profile jd) msgs gens 16)
        (msgs 16) (gens 16)).outcome = ProcessOutcome.closing closing_message
  ∧ (runWith (InterviewAgent.init sid profile jd) msgs gens 17).status = "completed"
  ∧ (runWith (InterviewAgent.init sid profile jd) msgs gens 17).total_questions = 16 := by
  have hcore := runWith_core sid profile jd msgs gens hgens
  have hph : ∀ n, (runWith (InterviewAgent.init sid profile jd) msgs gens n).current_phase
      = (runN n).current_phase := fun n => congrArg (fun c => c.1) (hcore n)
  have hqn : ∀ n,
      (runWith (InterviewAgent.init sid profile jd) msgs gens n).questions_asked_in_phase
        = (runN n).questions_asked_in_phase := fun n => congrArg (fun c => c.2.1) (hcore n)
  have htot : ∀ n, (runWith (InterviewAgent.init sid profile jd) msgs gens n).total_questions
      = (runN n).total_questions := fun n => congrArg (fun c => c.2.2.1) (hcore n)
  have hst : ∀ n, (runWith (InterviewAgent.init sid profile jd) msgs gens n).status
      = (runN n).status := fun n => congrArg (fun c => c.2.2.2) (hcore n)
  refine ⟨?_, ?_, ?_, ?_, ?_, ?_⟩
  · simp only [hph]
    decide
  · rw [hst 16]
    decide
  · rw [htot 16]
    decide
  · have hq3 : phase_max_questions
        ((runWith (InterviewAgent.init sid profile jd) msgs gens 16).current_phase)
        ≤ (runWith (InterviewAgent.init sid profile jd) msgs gens 16).questions_asked_in_phase := by
      rw [hph 16, hqn 16]
      decide
    have hlt : ¬ (runWith (InterviewAgent.init sid profile jd) msgs gens 16).current_phase < 4 := by
      rw [hph 16]
      decide
    rw [process_advance_completed _ _ _ hq3 hlt]
  · rw [hst 17]
    decide
  · rw [htot 17]
    decide

set_option maxRecDepth 80000 in
/-- Witness for the amended C1 at concrete inputs. -/
theorem interview_schedule_witness :
    (runWith (InterviewAgent.init "sid-1" jane_profile jane_jd)
        (fun _ => "I see.") (fun _ => always_answer) 17).status = "completed" :=
  (interview_schedule "sid-1" jane_profile jane_jd (fun _ => "I see.")
    (fun _ => always_answer) (fun _ => always_answer_spec)).2.2.2.2.1
